import Mathlib

/-!
Verification development for the Genx-Eval-Backend evaluation pipeline.

Shallow embedding of:
- `deepeval/src/models.py` (EvaluationData, MetricResult, batch shapes),
- `deepeval/src/backends/core_metric_logic.py` (BaseMetric.calculate,
  DeepEvalMetricWrapper),
- the per-metric `_calculate_metric` implementations under
  `deepeval/src/backends/`,
- `deepeval/src/core/metric_factory.py` (MetricFactory.create_metric),
- `deepeval/src/grpc_server/server.py` (batch processing and error response),
- `evaluator/src/core/grpc_client_fixed.py` (retry loop and fallback),
- `evaluator/src/api/routes/evaluation.py` (start and stop routes),
- `evaluator/src/core/evaluation_handler.py` (status updates and finalization).

Scores are modelled as rationals; Python exceptions at the `Exception` level
are modelled with `Except String`; the effectful outcome of a scorer or a
transport call is passed in as an explicit parameter so the surrounding
control flow can be proved about for every possible outcome.
-/

namespace GenxEval

/-- Evaluation data model from deepeval `models.py` (`EvaluationData`). -/
structure EvaluationData where
  question : String := ""
  answer : String := ""
  context : String := ""
  expected_answer : String := ""
  reference_output : String := ""
  deriving Repr, DecidableEq

/-- Result model from deepeval `models.py` (`MetricResult`); `metadata` keeps
only the `calculation_method` entry the code writes. -/
structure MetricResult where
  metric_name : String
  score : ℚ
  success : Bool := true
  error_message : Option String := none
  metadata : List (String × String) := []
  execution_time_ms : ℚ := 0
  deriving Repr, DecidableEq

/-- Outcome of the body guarded by the try of `BaseMetric.calculate`:
the awaited `_calculate_metric` either times out (`asyncio.TimeoutError`),
raises an `Exception` carrying a message, or returns a score. -/
inductive ScorerOutcome where
  | timeoutErr
  | raises (msg : String)
  | returns (score : ℚ)
  deriving Repr, DecidableEq

namespace BaseMetric

/-- Embeds `BaseMetric._validate_input`: raises `ValueError` when the stripped
question or answer is empty; `none` means validation passed. -/
def validate_input (data : EvaluationData) : Option String :=
  if data.question.trim = "" then some "Question cannot be empty"
  else if data.answer.trim = "" then some "Answer cannot be empty"
  else none

/-- Embeds `BaseMetric.calculate` from `core_metric_logic.py`: validation happens
inside the try block, so a validation `ValueError` is caught by the generic
`except Exception` handler; a timeout is caught by the `asyncio.TimeoutError`
handler; any other exception by the generic handler.  `validation` is the
outcome of the (possibly subclass-overridden) `_validate_input`, `outcome`
the outcome of the awaited `_calculate_metric`, `className` the runtime class
name recorded in metadata, and `elapsed` the measured wall time. -/
def calculate (metric_name : String) (timeout_seconds : ℕ)
    (className : String) (validation : Option String)
    (outcome : ScorerOutcome) (elapsed : ℚ) : MetricResult :=
  match validation with
  | some msg =>
      { metric_name := metric_name
        score := 0
        success := false
        error_message := some ("Metric calculation failed: " ++ msg)
        execution_time_ms := elapsed }
  | none =>
    match outcome with
    | .timeoutErr =>
        { metric_name := metric_name
          score := 0
          success := false
          error_message :=
            some ("Metric calculation timed out after " ++
              toString timeout_seconds ++ "s")
          execution_time_ms := elapsed }
    | .raises msg =>
        { metric_name := metric_name
          score := 0
          success := false
          error_message := some ("Metric calculation failed: " ++ msg)
          execution_time_ms := elapsed }
    | .returns s =>
        { metric_name := metric_name
          score := s
          success := true
          error_message := none
          metadata := [("calculation_method", className)]
          execution_time_ms := elapsed }

/-- Python exceptions at the level distinguished by the handlers of
`BaseMetric.calculate`: `asyncio.TimeoutError` and every other `Exception`. -/
inductive PyExc where
  | timeoutError
  | exception (msg : String)
  deriving Repr, DecidableEq

/-- The unguarded body of the try block of `BaseMetric.calculate`:
`_validate_input` may raise `ValueError`, the awaited `_calculate_metric`
may time out or raise, otherwise a score comes back. -/
def calculateBody (validation : Option String) (outcome : ScorerOutcome) :
    Except PyExc ℚ :=
  match validation with
  | some msg => .error (.exception msg)
  | none =>
    match outcome with
    | .timeoutErr => .error .timeoutError
    | .raises msg => .error (.exception msg)
    | .returns s => .ok s

/-- Embeds `BaseMetric.calculate` with its exception behaviour made explicit: the
body runs under the two except handlers, each of which returns a
`MetricResult` instead of re-raising.  An uncaught exception would surface
as `Except.error`. -/
def calculateChecked (metric_name : String) (timeout_seconds : ℕ)
    (className : String) (validation : Option String)
    (outcome : ScorerOutcome) (elapsed : ℚ) : Except PyExc MetricResult :=
  match calculateBody validation outcome with
  | .ok s =>
      .ok { metric_name := metric_name
            score := s
            success := true
            error_message := none
            metadata := [("calculation_method", className)]
            execution_time_ms := elapsed }
  | .error .timeoutError =>
      .ok { metric_name := metric_name
            score := 0
            success := false
            error_message :=
              some ("Metric calculation timed out after " ++
                toString timeout_seconds ++ "s")
            execution_time_ms := elapsed }
  | .error (.exception msg) =>
      .ok { metric_name := metric_name
            score := 0
            success := false
            error_message := some ("Metric calculation failed: " ++ msg)
            execution_time_ms := elapsed }

end BaseMetric

/-- Embeds `max(0.0, min(1.0, score))`, the normalization every backend metric
applies before returning. -/
def clamp01 (score : ℚ) : ℚ := max 0 (min 1 score)

/-- Python `str.split()` with no argument: split on whitespace runs and
drop empty pieces. -/
def pySplit (s : String) : List String :=
  (s.split Char.isWhitespace).filter (fun w => w ≠ "")

/-- Python `set(s.lower().split())`, kept as a duplicate-free list. -/
def pyWordSet (s : String) : List String := (pySplit s.toLower).dedup

/-- Python `sub in s` substring membership (for the non-empty keyword
literals used by the geval fallback). -/
def pyContains (s sub : String) : Bool := (s.splitOn sub).length != 1

/-- Python `any(keyword in criteria for keyword in ks)`. -/
def hasAnyKeyword (criteria : String) (ks : List String) : Bool :=
  ks.any (fun k => pyContains criteria k)

/-- Python `s.endswith(('.', '!', '?'))`. -/
def endsWithPunct (s : String) : Bool :=
  s.endsWith "." || s.endsWith "!" || s.endsWith "?"

/-- Embeds `AnswerRelevancyMetric._calculate_metric` (`rag_metrics/answer_relevancy.py`):
clamp the DeepEval score into `[0,1]`; any exception is re-raised. -/
def AnswerRelevancyMetric.calculate_metric (raw : Except String ℚ) :
    Except String ℚ :=
  match raw with
  | .ok score => .ok (max 0 (min 1 score))
  | .error e => .error e

/-- Embeds `FaithfulnessMetric._calculate_metric` (`rag_metrics/faithfulness.py`). -/
def FaithfulnessMetric.calculate_metric (raw : Except String ℚ) :
    Except String ℚ :=
  match raw with
  | .ok score => .ok (max 0 (min 1 score))
  | .error e => .error e

/-- Embeds `ContextualPrecisionMetric._calculate_metric`
(`rag_metrics/contextual_precision.py`). -/
def ContextualPrecisionMetric.calculate_metric (raw : Except String ℚ) :
    Except String ℚ :=
  match raw with
  | .ok score => .ok (max 0 (min 1 score))
  | .error e => .error e

/-- Embeds `ContextualRecallMetric._calculate_metric`
(`rag_metrics/contextual_recall.py`). -/
def ContextualRecallMetric.calculate_metric (raw : Except String ℚ) :
    Except String ℚ :=
  match raw with
  | .ok score => .ok (max 0 (min 1 score))
  | .error e => .error e

/-- Embeds `ContextualRelevancyMetric._calculate_metric`
(`rag_metrics/contextual_relevancy.py`). -/
def ContextualRelevancyMetric.calculate_metric (raw : Except String ℚ) :
    Except String ℚ :=
  match raw with
  | .ok score => .ok (max 0 (min 1 score))
  | .error e => .error e

/-- Embeds `BiasMetric._calculate_metric` (`safety_ethics/bias.py`): bias is not
inverted, only clamped. -/
def BiasMetric.calculate_metric (raw : Except String ℚ) : Except String ℚ :=
  match raw with
  | .ok score => .ok (max 0 (min 1 score))
  | .error e => .error e

/-- Embeds `ToxicityMetric._calculate_metric` (`safety_ethics/toxicity.py`). -/
def ToxicityMetric.calculate_metric (raw : Except String ℚ) :
    Except String ℚ :=
  match raw with
  | .ok score => .ok (max 0 (min 1 score))
  | .error e => .error e

/-- Embeds `HallucinationMetric._calculate_metric`
(`safety_ethics/hallucination.py`). -/
def HallucinationMetric.calculate_metric (raw : Except String ℚ) :
    Except String ℚ :=
  match raw with
  | .ok score => .ok (max 0 (min 1 score))
  | .error e => .error e

/-- Embeds `SummarizationMetric._fallback_summarization_evaluation`
(`task_specific/summarization.py`): heuristic score from compression rate
and keyword overlap; its own except handler returns `0.5`, so it is total. -/
def SummarizationMetric.fallback_evaluation (data : EvaluationData) : ℚ :=
  let original_length : ℕ := (pySplit data.context).length
  let summary_length : ℕ := (pySplit data.answer).length
  let comprRate : ℚ :=
    if original_length > 0 then (summary_length : ℚ) / original_length else 1
  let compression_score : ℚ :=
    if 1/10 ≤ comprRate ∧ comprRate ≤ 3/10 then 1
    else if (1/20 ≤ comprRate ∧ comprRate < 1/10) ∨
        (3/10 < comprRate ∧ comprRate ≤ 1/2) then 7/10
    else 3/10
  let original_words := pyWordSet data.context
  let summary_words := pyWordSet data.answer
  let overlap : ℕ :=
    (original_words.filter (fun w => summary_words.contains w)).length
  let overlap_score : ℚ :=
    if original_words.length > 0 then
      min 1 ((overlap : ℚ) / original_words.length * 3)
    else 1/2
  compression_score * (6/10) + overlap_score * (4/10)

/-- Embeds `SummarizationMetric._calculate_metric`: try the DeepEval score and clamp
it; on any exception fall back to the local heuristic, so no exception
escapes. -/
def SummarizationMetric.calculate_metric (raw : Except String ℚ)
    (data : EvaluationData) : ℚ :=
  match raw with
  | .ok score => max 0 (min 1 score)
  | .error _ => SummarizationMetric.fallback_evaluation data

/-- Embeds `GEvalMetric._fallback_geval` (`custom_metrics/geval.py`): keyword
heuristics over the configured criteria string; defaults to `0.5`. -/
def GEvalMetric.fallback_geval (data : EvaluationData)
    (criteriaConfig : String) : ℚ :=
  let criteria := criteriaConfig.toLower
  if hasAnyKeyword criteria ["quality", "good", "accurate"] then
    if 50 < data.answer.trim.length ∧ endsWithPunct data.answer.trim
    then 8/10 else 6/10
  else if hasAnyKeyword criteria ["relevant", "related"] then
    if data.question ≠ "" ∧ data.answer ≠ "" then
      let question_words := pyWordSet data.question
      let answer_words := pyWordSet data.answer
      let overlap : ℕ :=
        (question_words.filter (fun w => answer_words.contains w)).length
      if question_words.length > 0 then
        min 1 ((overlap : ℚ) / question_words.length * 2)
      else 1/2
    else 1/2
  else if hasAnyKeyword criteria ["complete", "comprehensive"] then
    let answer_length := (pySplit data.answer).length
    if answer_length > 100 then 9/10
    else if answer_length > 50 then 7/10
    else 1/2
  else 1/2

/-- Embeds `GEvalMetric._calculate_metric`: try DeepEval GEval and clamp; on any
exception use the fallback, so no exception escapes. -/
def GEvalMetric.calculate_metric (raw : Except String ℚ)
    (data : EvaluationData) (criteriaConfig : String) : ℚ :=
  match raw with
  | .ok score => max 0 (min 1 score)
  | .error _ => GEvalMetric.fallback_geval data criteriaConfig

/-- The metric names `MetricFactory.create_metric` can construct
(`core/metric_factory.py`); any other name raises
`ValueError("Unknown metric: ...")`. -/
def factoryMetricNames : List String :=
  ["answer_relevancy", "faithfulness", "contextual_precision",
   "contextual_recall", "contextual_relevancy", "bias", "toxicity",
   "hallucination", "summarization", "geval"]

/-- The `_calculate_metric` behaviour of the metric
`MetricFactory.create_metric` returns for a name: `raw` is the outcome of
the underlying DeepEval scorer call, `criteriaConfig` the geval
`config["criteria"]` value.  Unknown names raise `ValueError` at
construction time. -/
def factoryCalculateMetric (name : String) (raw : Except String ℚ)
    (data : EvaluationData) (criteriaConfig : String) : Except String ℚ :=
  if name = "answer_relevancy" then AnswerRelevancyMetric.calculate_metric raw
  else if name = "faithfulness" then FaithfulnessMetric.calculate_metric raw
  else if name = "contextual_precision" then
    ContextualPrecisionMetric.calculate_metric raw
  else if name = "contextual_recall" then
    ContextualRecallMetric.calculate_metric raw
  else if name = "contextual_relevancy" then
    ContextualRelevancyMetric.calculate_metric raw
  else if name = "bias" then BiasMetric.calculate_metric raw
  else if name = "toxicity" then ToxicityMetric.calculate_metric raw
  else if name = "hallucination" then HallucinationMetric.calculate_metric raw
  else if name = "summarization" then
    .ok (SummarizationMetric.calculate_metric raw data)
  else if name = "geval" then
    .ok (GEvalMetric.calculate_metric raw data criteriaConfig)
  else .error ("Unknown metric: " ++ name)

/-- Package the outcome of `_calculate_metric` as the scorer outcome seen by
`BaseMetric.calculate`. -/
def scorerOutcomeOf (r : Except String ℚ) : ScorerOutcome :=
  match r with
  | .ok s => .returns s
  | .error e => .raises e

end GenxEval

namespace GenxEval

/-- Claim C1: for every `MetricResult` returned by `BaseMetric.calculate`
(validation failure, timeout, or any scoring exception), `success = false`
implies `score = 0` and `error_message` is set to a non-empty string. -/
theorem C1_failed_result_shape (metric_name : String) (timeout_seconds : ℕ)
    (className : String) (validation : Option String)
    (outcome : ScorerOutcome) (elapsed : ℚ)
    (h : (BaseMetric.calculate metric_name timeout_seconds className
            validation outcome elapsed).success = false) :
    (BaseMetric.calculate metric_name timeout_seconds className
        validation outcome elapsed).score = 0 ∧
    ∃ msg, (BaseMetric.calculate metric_name timeout_seconds className
        validation outcome elapsed).error_message = some msg ∧ msg ≠ "" := by
  cases validation with
  | some msg =>
      refine ⟨rfl, "Metric calculation failed: " ++ msg, rfl, ?_⟩
      simp [String.ext_iff]
  | none =>
      cases outcome with
      | timeoutErr =>
          refine ⟨rfl, _, rfl, ?_⟩
          simp [String.ext_iff, BaseMetric.calculate]
      | raises msg =>
          refine ⟨rfl, "Metric calculation failed: " ++ msg, rfl, ?_⟩
          simp [String.ext_iff]
      | returns s => simp [BaseMetric.calculate] at h

/-- Witness for C1: a concrete timed-out calculation has `success = false`,
score `0` and a non-empty error message. -/
theorem C1_failed_result_shape_witness :
    (BaseMetric.calculate "bias" 120 "BiasMetric" none .timeoutErr 7).score
        = 0 ∧
    ∃ msg, (BaseMetric.calculate "bias" 120 "BiasMetric" none
        .timeoutErr 7).error_message = some msg ∧ msg ≠ "" :=
  C1_failed_result_shape "bias" 120 "BiasMetric" none .timeoutErr 7 (by rfl)

/-- Claim C2: for every item, config and exception raised by validation or
the scorer, `BaseMetric.calculate` never propagates an exception: the
exception-explicit semantics always produce `Except.ok`, agreeing with the
total result function, and whenever the guarded body raised (timeout or any
other exception) the returned `MetricResult` is a failed one. -/
theorem C2_calculate_never_raises (metric_name : String) (timeout_seconds : ℕ)
    (className : String) (validation : Option String)
    (outcome : ScorerOutcome) (elapsed : ℚ) :
    BaseMetric.calculateChecked metric_name timeout_seconds className
        validation outcome elapsed
      = Except.ok (BaseMetric.calculate metric_name timeout_seconds className
          validation outcome elapsed) ∧
    (∀ e, BaseMetric.calculateBody validation outcome = Except.error e →
      (BaseMetric.calculate metric_name timeout_seconds className
          validation outcome elapsed).success = false) := by
  cases validation with
  | some msg =>
      exact ⟨rfl, fun e _ => rfl⟩
  | none =>
      cases outcome with
      | timeoutErr => exact ⟨rfl, fun e _ => rfl⟩
      | raises msg => exact ⟨rfl, fun e _ => rfl⟩
      | returns s =>
          refine ⟨rfl, fun e he => ?_⟩
          simp [BaseMetric.calculateBody] at he

/-- Witness for C2: the theorem applied at a concrete raising scorer. -/
theorem C2_calculate_never_raises_witness :
    BaseMetric.calculateChecked "faithfulness" 120 "FaithfulnessMetric" none
        (.raises "boom") 3
      = Except.ok (BaseMetric.calculate "faithfulness" 120
          "FaithfulnessMetric" none (.raises "boom") 3) ∧
    (∀ e, BaseMetric.calculateBody none (.raises "boom") = Except.error e →
      (BaseMetric.calculate "faithfulness" 120 "FaithfulnessMetric" none
          (.raises "boom") 3).success = false) :=
  C2_calculate_never_raises "faithfulness" 120 "FaithfulnessMetric" none
    (.raises "boom") 3

/-- A clamped value lies in the unit interval. -/
theorem clamp_mem (s : ℚ) : 0 ≤ max 0 (min 1 s) ∧ max 0 (min 1 s) ≤ 1 :=
  ⟨le_max_left _ _, max_le (by norm_num) (min_le_left _ _)⟩

/-- Embeds `min 1 x` lies in the unit interval once `x` is non-negative. -/
theorem min_one_mem (x : ℚ) (hx : 0 ≤ x) : 0 ≤ min 1 x ∧ min 1 x ≤ 1 :=
  ⟨le_min (by norm_num) hx, min_le_left _ _⟩

/-- A 60/40-weighted combination of unit-interval values stays in the unit
interval. -/
theorem combine_weighted_mem (c o : ℚ) (hc0 : 0 ≤ c) (hc1 : c ≤ 1)
    (ho0 : 0 ≤ o) (ho1 : o ≤ 1) :
    0 ≤ c * (6/10) + o * (4/10) ∧ c * (6/10) + o * (4/10) ≤ 1 := by
  constructor <;> nlinarith

/-- The heuristic summarization fallback always scores inside `[0,1]`. -/
theorem summarization_fallback_mem (data : EvaluationData) :
    0 ≤ SummarizationMetric.fallback_evaluation data ∧
    SummarizationMetric.fallback_evaluation data ≤ 1 := by
  unfold SummarizationMetric.fallback_evaluation
  refine combine_weighted_mem _ _ ?_ ?_ ?_ ?_
  · split_ifs <;> norm_num
  · split_ifs <;> norm_num
  · split_ifs with h
    · exact (min_one_mem _ (by positivity)).1
    · norm_num
  · split_ifs with h
    · exact (min_one_mem _ (by positivity)).2
    · norm_num

/-- The heuristic geval fallback always scores inside `[0,1]`. -/
theorem geval_fallback_mem (data : EvaluationData) (criteriaConfig : String) :
    0 ≤ GEvalMetric.fallback_geval data criteriaConfig ∧
    GEvalMetric.fallback_geval data criteriaConfig ≤ 1 := by
  simp only [GEvalMetric.fallback_geval]
  split_ifs
  all_goals first
    | (norm_num; done)
    | exact min_one_mem _ (mul_nonneg (div_nonneg (Nat.cast_nonneg _)
        (Nat.cast_nonneg _)) (by norm_num))

/-- A computation result whose successful value is guaranteed to lie in the
unit interval. -/
def okInUnit (r : Except String ℚ) : Prop :=
  ∀ s, r = Except.ok s → 0 ≤ s ∧ s ≤ 1

theorem okInUnit_ite (c : Prop) [Decidable c] {x y : Except String ℚ}
    (hx : okInUnit x) (hy : okInUnit y) : okInUnit (if c then x else y) := by
  by_cases h : c
  · simpa [h] using hx
  · simpa [h] using hy

theorem okInUnit_error (e : String) : okInUnit (Except.error e) :=
  fun _ h => Except.noConfusion h

theorem okInUnit_clampWrap
    (f : Except String ℚ → Except String ℚ)
    (hf : ∀ raw, f raw = match raw with
      | .ok score => Except.ok (max 0 (min 1 score))
      | .error e => Except.error e)
    (raw : Except String ℚ) : okInUnit (f raw) := by
  intro s h
  rw [hf] at h
  cases raw with
  | ok r =>
      simp only [Except.ok.injEq] at h
      subst h
      exact clamp_mem r
  | error e => exact Except.noConfusion h

theorem okInUnit_summarization (raw : Except String ℚ)
    (data : EvaluationData) :
    okInUnit (Except.ok (SummarizationMetric.calculate_metric raw data)) := by
  intro s h
  simp only [Except.ok.injEq] at h
  subst h
  cases raw with
  | ok r => exact clamp_mem r
  | error e => exact summarization_fallback_mem data

theorem okInUnit_geval (raw : Except String ℚ) (data : EvaluationData)
    (criteriaConfig : String) :
    okInUnit (Except.ok (GEvalMetric.calculate_metric raw data
      criteriaConfig)) := by
  intro s h
  simp only [Except.ok.injEq] at h
  subst h
  cases raw with
  | ok r => exact clamp_mem r
  | error e => exact geval_fallback_mem data criteriaConfig

/-- Every score a factory-constructible metric returns without raising is
already clamped into `[0,1]`. -/
theorem factoryCalculateMetric_ok_mem (name : String)
    (raw : Except String ℚ) (data : EvaluationData) (criteriaConfig : String)
    (s : ℚ)
    (h : factoryCalculateMetric name raw data criteriaConfig = Except.ok s) :
    0 ≤ s ∧ s ≤ 1 := by
  have H : okInUnit (factoryCalculateMetric name raw data criteriaConfig) := by
    unfold factoryCalculateMetric
    exact okInUnit_ite _ (okInUnit_clampWrap _ (fun _ => rfl) raw)
      (okInUnit_ite _ (okInUnit_clampWrap _ (fun _ => rfl) raw)
      (okInUnit_ite _ (okInUnit_clampWrap _ (fun _ => rfl) raw)
      (okInUnit_ite _ (okInUnit_clampWrap _ (fun _ => rfl) raw)
      (okInUnit_ite _ (okInUnit_clampWrap _ (fun _ => rfl) raw)
      (okInUnit_ite _ (okInUnit_clampWrap _ (fun _ => rfl) raw)
      (okInUnit_ite _ (okInUnit_clampWrap _ (fun _ => rfl) raw)
      (okInUnit_ite _ (okInUnit_clampWrap _ (fun _ => rfl) raw)
      (okInUnit_ite _ (okInUnit_summarization raw data)
      (okInUnit_ite _ (okInUnit_geval raw data criteriaConfig)
      (okInUnit_error _))))))))))
  exact H s h

/-- Embeds `create_metric` succeeds only for the names in its dispatch table; any
other name deterministically raises `ValueError("Unknown metric: ...")`. -/
def MetricFactory.knowsMetric (name : String) : Bool :=
  factoryMetricNames.contains name

/-- gRPC `BatchItemResult` (`common_pb2`), as filled by
`_process_batch_metrics_real`. -/
structure BatchItemResult where
  item_id : String
  question : String
  metric_scores : List (String × ℚ)
  success : Bool := true
  error_message : String := ""
  deriving Repr, DecidableEq

/-- gRPC `BatchMetricsResponse` (`deepeval_pb2`). -/
structure BatchMetricsResponse where
  results : List BatchItemResult
  success : Bool := true
  error_message : String := ""
  total_processed : ℕ := 0
  successful_count : ℕ := 0
  failed_count : ℕ := 0
  total_execution_time_ms : ℚ := 0
  summary_stats : List (String × String) := []
  deriving Repr, DecidableEq

/-- One (item, metric) computation inside the per-pair try of
`_process_batch_metrics_real` (`grpc_server/server.py`): `create_metric`
raises `ValueError` for a name outside the factory's table; `calcPair i
name` is the outcome of constructing the metric and awaiting `calculate`
for item `i` (construction can still raise, e.g. on a failed DeepEval
import).  Any exception lands in the `except` clause, which records the
default score `0.5`. -/
def pairScore (calcPair : ℕ → String → Except String MetricResult)
    (i : ℕ) (name : String) : ℚ :=
  if MetricFactory.knowsMetric name then
    match calcPair i name with
    | .ok result => result.score
    | .error _ => 1/2
  else 1/2

/-- The `BatchItemResult` built for item `i`: every item is marked
`success = True` whatever happened to its metrics. -/
def itemResult (calcPair : ℕ → String → Except String MetricResult)
    (metrics : List String) (i : ℕ) (item : EvaluationData) :
    BatchItemResult :=
  { item_id := toString i
    question := item.question
    metric_scores := metrics.map (fun name => (name, pairScore calcPair i name))
    success := true
    error_message := "" }

/-- Embeds `DeepEvalGRPCServer._process_batch_metrics_real`: one result per item,
`success = True`, `successful_count = len(results)`, `failed_count = 0`. -/
def processBatchMetricsReal
    (calcPair : ℕ → String → Except String MetricResult)
    (items : List EvaluationData) (metrics : List String) :
    BatchMetricsResponse :=
  let results := items.enum.map (fun p => itemResult calcPair metrics p.1 p.2)
  { results := results
    success := true
    error_message := ""
    total_processed := results.length
    successful_count := results.length
    failed_count := 0 }

/-- Embeds `DeepEvalGRPCServer._create_error_response`: `success = False`,
`total_processed = 0`, `successful_count = 0`, `failed_count = 1`. -/
def createErrorResponse (error_message : String) : BatchMetricsResponse :=
  { results := []
    success := false
    error_message := error_message
    total_processed := 0
    successful_count := 0
    failed_count := 1 }

/-- Embeds `DeepEvalGRPCServer.CalculateBatchMetrics` (real-mode path): run the
real batch processing and stamp the execution time; if anything in the try
block raises (`realPathExc`), answer with the error response instead. -/
def CalculateBatchMetrics
    (calcPair : ℕ → String → Except String MetricResult)
    (items : List EvaluationData) (metrics : List String)
    (realPathExc : Option String) (execTime : ℚ) : BatchMetricsResponse :=
  match realPathExc with
  | some e => createErrorResponse e
  | none =>
      let r := processBatchMetricsReal calcPair items metrics
      { r with total_execution_time_ms := execTime }

/-- Claim C6: for every metric the factory can construct and every raw
scorer outcome, a successful `MetricResult` carries a score in `[0,1]` --
the score is clamped before the metric returns it, regardless of the
scorer's native range. -/
theorem C6_success_score_in_unit (name : String) (timeout_seconds : ℕ)
    (className : String) (validation : Option String)
    (raw : Except String ℚ) (data : EvaluationData) (criteriaConfig : String)
    (elapsed : ℚ)
    (h : (BaseMetric.calculate name timeout_seconds className validation
        (scorerOutcomeOf (factoryCalculateMetric name raw data
          criteriaConfig)) elapsed).success = true) :
    0 ≤ (BaseMetric.calculate name timeout_seconds className validation
        (scorerOutcomeOf (factoryCalculateMetric name raw data
          criteriaConfig)) elapsed).score ∧
    (BaseMetric.calculate name timeout_seconds className validation
        (scorerOutcomeOf (factoryCalculateMetric name raw data
          criteriaConfig)) elapsed).score ≤ 1 := by
  cases validation with
  | some msg => simp [BaseMetric.calculate] at h
  | none =>
      rcases hr : factoryCalculateMetric name raw data criteriaConfig
        with e | s
      · rw [hr] at h
        simp [scorerOutcomeOf, BaseMetric.calculate] at h
      · simp only [scorerOutcomeOf, BaseMetric.calculate]
        exact factoryCalculateMetric_ok_mem name raw data criteriaConfig s hr

/-- Witness for C6: a bias scorer reporting the out-of-range raw value 2 is
clamped, and the successful result's score lies in the unit interval. -/
theorem C6_success_score_in_unit_witness :
    (BaseMetric.calculate "bias" 120 "BiasMetric" none
        (scorerOutcomeOf (factoryCalculateMetric "bias" (.ok 2) {} ""))
        5).success = true ∧
    (0 ≤ (BaseMetric.calculate "bias" 120 "BiasMetric" none
        (scorerOutcomeOf (factoryCalculateMetric "bias" (.ok 2) {} ""))
        5).score ∧
     (BaseMetric.calculate "bias" 120 "BiasMetric" none
        (scorerOutcomeOf (factoryCalculateMetric "bias" (.ok 2) {} ""))
        5).score ≤ 1) :=
  ⟨by rfl, C6_success_score_in_unit "bias" 120 "BiasMetric" none (.ok 2) {}
    "" 5 (by rfl)⟩

/-- Counterexample to claim C3: a batch holding one item and the unknown
metric name "nonexistent" is processed by the real batch path without any
batch-level error; the item is scored (the per-pair handler records the
default 0.5) and the response reports complete success, so no fail-fast
`ValidationError` precedes per-item scoring. -/
theorem C3_counterexample :
    processBatchMetricsReal (fun _ _ => Except.error "unused")
        [{ question := "What is AI?", answer := "AI is a field" }]
        ["nonexistent"]
      = { results := [{ item_id := "0"
                        question := "What is AI?"
                        metric_scores := [("nonexistent", 1/2)]
                        success := true
                        error_message := "" }]
          success := true
          error_message := ""
          total_processed := 1
          successful_count := 1
          failed_count := 0
          total_execution_time_ms := 0
          summary_stats := [] } := by
  rfl

/-- Claim C3 (amended): an unknown metric name does not raise a batch-level
`ValidationError` and does not stop the batch; `create_metric`'s
`ValueError` is caught inside the per-(item, metric) handler, the default
score 0.5 is recorded under the unknown name for every item, and the batch
completes with one successful result per item. -/
theorem C3_amended_unknown_metric_scored_per_pair
    (calcPair : ℕ → String → Except String MetricResult)
    (items : List EvaluationData) (metrics : List String) (name : String)
    (i : ℕ)
    (hunknown : MetricFactory.knowsMetric name = false)
    (hmem : name ∈ metrics) (hi : i < items.length) :
    (∃ r, (processBatchMetricsReal calcPair items metrics).results[i]?
        = some r ∧ (name, (1/2 : ℚ)) ∈ r.metric_scores ∧
        r.success = true) ∧
    (processBatchMetricsReal calcPair items metrics).success = true ∧
    (processBatchMetricsReal calcPair items metrics).error_message = "" ∧
    (processBatchMetricsReal calcPair items metrics).results.length
      = items.length := by
  refine ⟨?_, rfl, rfl, by simp [processBatchMetricsReal]⟩
  refine ⟨itemResult calcPair metrics i (items.get ⟨i, hi⟩), ?_, ?_, rfl⟩
  · simp [processBatchMetricsReal, List.getElem?_map, List.getElem?_enum,
      List.getElem?_eq_getElem hi]
  · refine List.mem_map.mpr ⟨name, hmem, ?_⟩
    simp [pairScore, hunknown]

/-- Witness for the amended C3: one item, metric list `["nonexistent"]`. -/
theorem C3_amended_witness :
    MetricFactory.knowsMetric "nonexistent" = false ∧
    ((∃ r, (processBatchMetricsReal (fun _ _ => Except.error "unused")
        [{ question := "q", answer := "a" }] ["nonexistent"]).results[0]?
        = some r ∧ ("nonexistent", (1/2 : ℚ)) ∈ r.metric_scores ∧
        r.success = true) ∧
    (processBatchMetricsReal (fun _ _ => Except.error "unused")
        [{ question := "q", answer := "a" }] ["nonexistent"]).success
      = true ∧
    (processBatchMetricsReal (fun _ _ => Except.error "unused")
        [{ question := "q", answer := "a" }]
        ["nonexistent"]).error_message = "" ∧
    (processBatchMetricsReal (fun _ _ => Except.error "unused")
        [{ question := "q", answer := "a" }]
        ["nonexistent"]).results.length
      = ([{ question := "q", answer := "a" }] :
          List EvaluationData).length) :=
  ⟨by decide,
   C3_amended_unknown_metric_scored_per_pair _ _ _ "nonexistent" 0
     (by decide) (by decide) (by decide)⟩

/-- Counterexample to claim C4: a two-item batch whose real path raises
outright is answered by `_create_error_response`, which reports
`successful_count + failed_count = 1` while `total_processed = 0` and the
request held 2 items -- the claimed invariant fails on outright failure. -/
theorem C4_counterexample :
    ¬((CalculateBatchMetrics (fun _ _ => Except.error "unused")
          [{ question := "q1" }, { question := "q2" }] ["bias"]
          (some "DeepEval modules unavailable") 12).successful_count +
        (CalculateBatchMetrics (fun _ _ => Except.error "unused")
          [{ question := "q1" }, { question := "q2" }] ["bias"]
          (some "DeepEval modules unavailable") 12).failed_count =
        (CalculateBatchMetrics (fun _ _ => Except.error "unused")
          [{ question := "q1" }, { question := "q2" }] ["bias"]
          (some "DeepEval modules unavailable") 12).total_processed ∧
      (CalculateBatchMetrics (fun _ _ => Except.error "unused")
          [{ question := "q1" }, { question := "q2" }] ["bias"]
          (some "DeepEval modules unavailable") 12).total_processed
        = 2) := by
  decide

/-- Claim C4 (amended): on the successful real path
`successful_count + failed_count = total_processed = len(items)` (with
`failed_count = 0`); on outright failure `_create_error_response` instead
fixes `total_processed = 0`, `successful_count = 0`, `failed_count = 1`,
breaking the invariant. -/
theorem C4_amended_counts
    (calcPair : ℕ → String → Except String MetricResult)
    (items : List EvaluationData) (metrics : List String) (execTime : ℚ) :
    ((CalculateBatchMetrics calcPair items metrics none
        execTime).successful_count +
      (CalculateBatchMetrics calcPair items metrics none
        execTime).failed_count =
      (CalculateBatchMetrics calcPair items metrics none
        execTime).total_processed) ∧
    (CalculateBatchMetrics calcPair items metrics none
        execTime).total_processed = items.length ∧
    (∀ e, (CalculateBatchMetrics calcPair items metrics (some e)
          execTime).total_processed = 0 ∧
      (CalculateBatchMetrics calcPair items metrics (some e)
          execTime).successful_count = 0 ∧
      (CalculateBatchMetrics calcPair items metrics (some e)
          execTime).failed_count = 1) := by
  refine ⟨?_, ?_, fun e => ⟨rfl, rfl, rfl⟩⟩ <;>
    simp [CalculateBatchMetrics, processBatchMetricsReal]

/-- Claim C9: in the engine's real batch path, when the calculation of one
(item, metric) pair raises, the engine records the sentinel score 0.5 for
that metric, still marks the item `success = true`, reports
`failed_count = 0` and `successful_count` equal to the number of items; and
the whole response is identical to the one produced when that metric
genuinely returns the score 0.5, so the failure is indistinguishable. -/
theorem C9_sentinel_indistinguishable
    (calcPair : ℕ → String → Except String MetricResult)
    (items : List EvaluationData) (metrics : List String)
    (i : ℕ) (name : String) (msg : String) (genuine : MetricResult)
    (hknown : MetricFactory.knowsMetric name = true)
    (hfail : calcPair i name = Except.error msg)
    (hscore : genuine.score = 1/2)
    (hi : i < items.length) (hmem : name ∈ metrics) :
    (∃ r, (processBatchMetricsReal calcPair items metrics).results[i]?
        = some r ∧ (name, (1/2 : ℚ)) ∈ r.metric_scores ∧
        r.success = true) ∧
    (processBatchMetricsReal calcPair items metrics).failed_count = 0 ∧
    (processBatchMetricsReal calcPair items metrics).successful_count
      = items.length ∧
    processBatchMetricsReal
        (fun j m => if j = i ∧ m = name then Except.ok genuine
          else calcPair j m) items metrics
      = processBatchMetricsReal calcPair items metrics := by
  have hget : (processBatchMetricsReal calcPair items metrics).results[i]?
      = some (itemResult calcPair metrics i (items.get ⟨i, hi⟩)) := by
    simp [processBatchMetricsReal, List.getElem?_map, List.getElem?_enum,
      List.getElem?_eq_getElem hi]
  refine ⟨⟨itemResult calcPair metrics i (items.get ⟨i, hi⟩), hget, ?_, rfl⟩,
    rfl, ?_, ?_⟩
  · refine List.mem_map.mpr ⟨name, hmem, ?_⟩
    simp [pairScore, hknown, hfail]
  · simp [processBatchMetricsReal]
  · have hpair : ∀ j m,
        pairScore (fun j m => if j = i ∧ m = name then Except.ok genuine
          else calcPair j m) j m = pairScore calcPair j m := by
      intro j m
      by_cases hjm : j = i ∧ m = name
      · obtain ⟨hj, hm⟩ := hjm
        subst hj; subst hm
        simp [pairScore, hknown, hfail, hscore]
      · simp [pairScore, hjm]
    simp only [processBatchMetricsReal]
    have hres : items.enum.map (fun p =>
          itemResult (fun j m => if j = i ∧ m = name then Except.ok genuine
            else calcPair j m) metrics p.1 p.2)
        = items.enum.map (fun p => itemResult calcPair metrics p.1 p.2) := by
      refine List.map_congr_left (fun p _ => ?_)
      simp [itemResult, hpair]
    rw [hres]

/-- One value of the loosely typed Python dicts the evaluator client
returns (`summary_stats` mixes booleans and strings). -/
inductive JVal where
  | bool (b : Bool)
  | str (s : String)
  | noneVal
  deriving Repr, DecidableEq

/-- One entry of the `results` list of the client's response dict. -/
structure ClientItemResult where
  item_id : String
  question : String
  metric_scores : List (String × ℚ)
  success : Bool
  error_message : String
  deriving Repr, DecidableEq

/-- The dict `DeepEvalGRPCClient.calculate_batch_metrics` returns. -/
structure ClientBatchResult where
  success : Bool
  results : List ClientItemResult
  total_processed : ℕ
  successful_count : ℕ
  failed_count : ℕ
  execution_time_ms : ℚ
  summary_stats : List (String × JVal)
  deriving Repr, DecidableEq

/-- Python `random.uniform(a, b)` driven by an explicit draw `t ∈ [0,1]`. -/
def pyUniform (a b t : ℚ) : ℚ := a + (b - a) * t

/-- Python `round(x, 3)`. -/
def round3 (x : ℚ) : ℚ := (round (x * 1000) : ℚ) / 1000

/-- Python `random.randint(a, b)` driven by an explicit draw `t ∈ [0,1)`. -/
def pyRandint (a b : ℕ) (t : ℚ) : ℚ :=
  (a : ℚ) + (Int.floor (((b : ℚ) - (a : ℚ) + 1) * t) : ℚ)

/-- One mock metric score of `_mock_batch_metrics_response`
(`grpc_client_fixed.py`): the uniform range depends on the metric family,
`t` is the random draw consumed by this (item, metric) pair. -/
def mockMetricScore (metric : String) (t : ℚ) : ℚ :=
  if ["answer_relevancy", "faithfulness",
      "contextual_relevancy"].contains metric then
    round3 (pyUniform (7/10) (95/100) t)
  else if ["bias", "toxicity", "hallucination"].contains metric then
    round3 (pyUniform 0 (3/10) t)
  else round3 (pyUniform (6/10) (9/10) t)

/-- Embeds `DeepEvalGRPCClient._mock_batch_metrics_response`: the fallback answer
built from random draws (`rng k` is the k-th draw of the underlying
generator state); scores consume one draw per (item, metric) pair and the
execution time one final draw.  `success = True`, `failed_count = 0`, and
`summary_stats` carries the `mock_mode` marker plus the triggering error. -/
def mockBatchMetricsResponse (rng : ℕ → ℚ)
    (evaluation_data : List EvaluationData) (metrics : List String)
    (error : Option String) : ClientBatchResult :=
  let results := evaluation_data.enum.map (fun p =>
    { item_id := toString p.1
      question := p.2.question.take 50 ++ "..."
      metric_scores := metrics.enum.map (fun q =>
        (q.2, mockMetricScore q.2 (rng (p.1 * metrics.length + q.1))))
      success := true
      error_message := "" : ClientItemResult })
  { success := true
    results := results
    total_processed := results.length
    successful_count := results.length
    failed_count := 0
    execution_time_ms :=
      pyRandint 1000 5000 (rng (evaluation_data.length * metrics.length))
    summary_stats := [("mock_mode", JVal.bool true),
      ("error", match error with
        | some e => JVal.str e
        | none => JVal.noneVal)] }

/-- Result of the retry loop of `_call_with_retries`: a response, the
re-raised exception of the final attempt, or Python's implicit `None`
return when `range(max_retries)` is empty. -/
inductive RetryOutcome (R : Type) where
  | ok (r : R)
  | raised (e : String)
  | noneReturn
  deriving Repr, DecidableEq

/-- Embeds `DeepEvalGRPCClient._call_with_retries` over the remaining attempt
indices of `range(max_retries)`: besides the outcome it returns the number
of attempts made and the sleeps performed, `retry_delay * (attempt + 1)`
after each failed non-final attempt. -/
def callWithRetriesGo {R : Type} (attemptResult : ℕ → Except String R)
    (retry_delay : ℚ) : List ℕ → RetryOutcome R × ℕ × List ℚ
  | [] => (.noneReturn, 0, [])
  | [a] =>
      match attemptResult a with
      | .ok r => (.ok r, 1, [])
      | .error e => (.raised e, 1, [])
  | a :: rest =>
      match attemptResult a with
      | .ok r => (.ok r, 1, [])
      | .error _ =>
          let x := callWithRetriesGo attemptResult retry_delay rest
          (x.1, x.2.1 + 1, retry_delay * ((a : ℚ) + 1) :: x.2.2)

/-- Embeds `DeepEvalGRPCClient._call_with_retries`. -/
def callWithRetries {R : Type} (attemptResult : ℕ → Except String R)
    (max_retries : ℕ) (retry_delay : ℚ) : RetryOutcome R × ℕ × List ℚ :=
  callWithRetriesGo attemptResult retry_delay (List.range max_retries)

/-- Embeds `DeepEvalGRPCClient.calculate_batch_metrics` with the transport made
explicit: `attemptResult k` is the outcome of the k-th transport attempt.
A raised transport error, a `success=False` response (re-raised as
`Exception`), and the `None` return (whose attribute access raises) all
land in the outer except handler, which answers with the mock fallback
built from `rng` instead of propagating. -/
def clientCalculateBatchMetrics
    (attemptResult : ℕ → Except String BatchMetricsResponse)
    (max_retries : ℕ) (retry_delay : ℚ) (rng : ℕ → ℚ)
    (evaluation_data : List EvaluationData) (metrics : List String) :
    ClientBatchResult :=
  match callWithRetries attemptResult max_retries retry_delay with
  | (.ok resp, _, _) =>
      if resp.success then
        { success := true
          results := resp.results.map (fun r =>
            { item_id := r.item_id
              question := r.question
              metric_scores := r.metric_scores
              success := r.success
              error_message := r.error_message })
          total_processed := resp.total_processed
          successful_count := resp.successful_count
          failed_count := resp.failed_count
          execution_time_ms := resp.total_execution_time_ms
          summary_stats :=
            resp.summary_stats.map (fun p => (p.1, JVal.str p.2)) }
      else
        mockBatchMetricsResponse rng evaluation_data metrics
          (some ("DeepEval service error: " ++ resp.error_message))
  | (.raised e, _, _) =>
      mockBatchMetricsResponse rng evaluation_data metrics (some e)
  | (.noneReturn, _, _) =>
      mockBatchMetricsResponse rng evaluation_data metrics
        (some "AttributeError on None response")

/-- Counterexample to claim C5: with the engine unreachable and retry count
3, the fallback returned by `calculate_batch_metrics` is not deterministic:
two runs differing only in the state of the random generator return
different responses (the mock scores are random draws). -/
theorem C5_counterexample :
    clientCalculateBatchMetrics (fun _ => Except.error "connect failed") 3 1
        (fun _ => 0) [{ question := "q" }] ["answer_relevancy"]
      ≠ clientCalculateBatchMetrics (fun _ => Except.error "connect failed")
        3 1 (fun _ => 1) [{ question := "q" }] ["answer_relevancy"] := by
  intro h
  have h2 := congrArg (fun r => r.results.map
    (fun it => it.metric_scores)) h
  simp [clientCalculateBatchMetrics, callWithRetries, callWithRetriesGo,
    mockBatchMetricsResponse, mockMetricScore, pyUniform, round3,
    List.range_succ] at h2
  norm_num at h2

/-- Claim C5 (amended): when the engine is unreachable and the retry count
is 3, `calculate_batch_metrics` makes exactly 3 attempts with strictly
increasing delay between consecutive attempts, then returns the mock
fallback response -- `success = true` with the `mock_mode` marker in
`summary_stats` -- and never propagates an exception; the fallback's scores
are random draws, so it is not deterministic. -/
theorem C5_amended_retries_and_fallback
    (attemptResult : ℕ → Except String BatchMetricsResponse)
    (e : ℕ → String) (d : ℚ) (rng : ℕ → ℚ)
    (evaluation_data : List EvaluationData) (metrics : List String)
    (hd : 0 < d) (hfail : ∀ k, attemptResult k = Except.error (e k)) :
    (callWithRetries attemptResult 3 d).2.1 = 3 ∧
    (callWithRetries attemptResult 3 d).2.2 = [d, d * 2] ∧
    List.Chain' (· < ·) (callWithRetries attemptResult 3 d).2.2 ∧
    clientCalculateBatchMetrics attemptResult 3 d rng evaluation_data metrics
      = mockBatchMetricsResponse rng evaluation_data metrics (some (e 2)) ∧
    (clientCalculateBatchMetrics attemptResult 3 d rng evaluation_data
        metrics).success = true ∧
    ("mock_mode", JVal.bool true) ∈ (clientCalculateBatchMetrics attemptResult
        3 d rng evaluation_data metrics).summary_stats := by
  have hr : List.range 3 = [0, 1, 2] := rfl
  have hrun : callWithRetries attemptResult 3 d
      = (.raised (e 2), 3, [d * (((0 : ℕ) : ℚ) + 1),
          d * (((1 : ℕ) : ℚ) + 1)]) := by
    simp [callWithRetries, hr, callWithRetriesGo, hfail]
  have hdelays : (callWithRetries attemptResult 3 d).2.2 = [d, d * 2] := by
    rw [hrun]
    norm_num
  have hclient : clientCalculateBatchMetrics attemptResult 3 d rng
      evaluation_data metrics
      = mockBatchMetricsResponse rng evaluation_data metrics (some (e 2)) := by
    simp [clientCalculateBatchMetrics, hrun]
  refine ⟨by rw [hrun], hdelays, ?_, hclient, ?_, ?_⟩
  · rw [hdelays]
    simp [List.chain'_cons]
    linarith
  · rw [hclient]
    simp [mockBatchMetricsResponse]
  · rw [hclient]
    simp [mockBatchMetricsResponse]

/-- An always-unreachable transport, for the C5 witness. -/
def c5Attempt : ℕ → Except String BatchMetricsResponse :=
  fun _ => Except.error "engine unreachable"

/-- Witness for the amended C5: retry count 3, delay 1, engine always
unreachable. -/
theorem C5_amended_witness :
    (0 : ℚ) < 1 ∧
    (∀ k, c5Attempt k = Except.error "engine unreachable") ∧
    ((callWithRetries c5Attempt 3 1).2.1 = 3 ∧
    (callWithRetries c5Attempt 3 1).2.2 = [1, 1 * 2] ∧
    List.Chain' (· < ·) (callWithRetries c5Attempt 3 1).2.2 ∧
    clientCalculateBatchMetrics c5Attempt 3 1 (fun _ => 0)
        [{ question := "q" }] ["bias"]
      = mockBatchMetricsResponse (fun _ => 0) [{ question := "q" }] ["bias"]
          (some "engine unreachable") ∧
    (clientCalculateBatchMetrics c5Attempt 3 1 (fun _ => 0)
        [{ question := "q" }] ["bias"]).success = true ∧
    ("mock_mode", JVal.bool true) ∈ (clientCalculateBatchMetrics c5Attempt
        3 1 (fun _ => 0) [{ question := "q" }] ["bias"]).summary_stats) :=
  ⟨by norm_num, fun k => rfl,
   C5_amended_retries_and_fallback c5Attempt (fun _ => "engine unreachable")
     1 (fun _ => 0) [{ question := "q" }] ["bias"] (by norm_num)
     (fun k => rfl)⟩

/-- One element of the `models` array of a status document
(`models.py` `ModelStatus` as stored). -/
structure ModelDoc where
  config_id : String := ""
  model_name : String := ""
  status : String := "Not Started"
  deriving Repr, DecidableEq

/-- A document of the Mongo status collection; `models := none` models a
document without a "models" key. -/
structure StatusDoc where
  process_id : String
  user_id : String
  models : Option (List ModelDoc) := some []
  overall_status : String := "In Progress"
  deriving Repr, DecidableEq

/-- Embeds `StatusRepository.check_ongoing_task` (`status_repo.py`): `find_one` on
`user_id` and `overall_status == "In Progress"`. -/
def checkOngoingTask (store : List StatusDoc) (user_id : String) : Bool :=
  store.any (fun doc =>
    doc.user_id == user_id && doc.overall_status == "In Progress")

/-- Observable outcome of the `/evaluate` route: either the 400 conflict
rejection or a started background evaluation. -/
inductive EvalRouteResult where
  | conflict (status_code : ℕ) (detail : String)
  | started (process_id : String)
  deriving Repr, DecidableEq

/-- The state the `/evaluate` route can touch: the status store plus the
process ids allocated and handlers constructed so far. -/
structure OrchestratorState where
  statusStore : List StatusDoc
  handlersCreated : ℕ
  allocatedProcessIds : List String
  deriving Repr, DecidableEq

/-- Embeds `evaluate_dataset` (`api/routes/evaluation.py`) after payload parsing:
`check_ongoing_task` runs BEFORE the process id is generated, the
`EvaluationHandler` constructed, and the background task scheduled; on
conflict an `HTTPException(400, ...)` is raised and nothing is allocated,
created or persisted. -/
def evaluateDataset (st : OrchestratorState) (user_id : String)
    (newProcessId : String) : EvalRouteResult × OrchestratorState :=
  if checkOngoingTask st.statusStore user_id then
    (.conflict 400 "User already has an ongoing evaluation task.", st)
  else
    (.started newProcessId,
      { st with
          handlersCreated := st.handlersCreated + 1
          allocatedProcessIds := st.allocatedProcessIds ++ [newProcessId] })

/-- In-memory per-process entry of `EvaluationHandler.task_statuses`:
`models` maps model_id to status string. -/
structure TaskStatusEntry where
  models : List (String × String)
  overall_status : String
  deriving Repr, DecidableEq

/-- The `/stop` route body (for a process present in cache and store):
`overall_status` is set to "Stopped" unconditionally, whatever it was. -/
def stopEvaluationEntry (entry : TaskStatusEntry) : TaskStatusEntry :=
  { entry with overall_status := "Stopped" }

/-- Embeds `EvaluationHandler._finalize_evaluation`: recompute `overall_status`
from the model statuses alone -- "Completed" iff every model is
"Completed", else "Failed" -- and write it unconditionally, regardless of a
previously stored "Stopped". -/
def finalizeEvaluationEntry (entry : TaskStatusEntry) : TaskStatusEntry :=
  { entry with overall_status :=
      if entry.models.all (fun p => p.2 == "Completed") then "Completed"
      else "Failed" }

/-- Embeds `EvaluationHandler._handle_evaluation_failure`: unconditionally set
`overall_status := "Failed"`. -/
def failEvaluationEntry (entry : TaskStatusEntry) : TaskStatusEntry :=
  { entry with overall_status := "Failed" }

/-- The orchestrator operations that write `overall_status`. -/
inductive OrchOp where
  | stopOp
  | finalizeOp
  | failOp
  deriving Repr, DecidableEq

/-- Apply one status-writing operation. -/
def applyOrchOp : OrchOp → TaskStatusEntry → TaskStatusEntry
  | .stopOp, s => stopEvaluationEntry s
  | .finalizeOp, s => finalizeEvaluationEntry s
  | .failOp, s => failEvaluationEntry s

/-- Run a sequence of status-writing operations. -/
def runOrchOps (s : TaskStatusEntry) (ops : List OrchOp) : TaskStatusEntry :=
  ops.foldl (fun t op => applyOrchOp op t) s

/-- Concrete single-item batch for the C9 witness. -/
def c9Items : List EvaluationData := [{ question := "q", answer := "a" }]

/-- A per-pair calculation that always raises, for the C9 witness. -/
def c9Calc : ℕ → String → Except String MetricResult :=
  fun _ _ => Except.error "boom"

/-- A genuine result scoring exactly 0.5, for the C9 witness. -/
def c9Genuine : MetricResult := { metric_name := "bias", score := 1/2 }

/-- Witness for C9: the bias metric raising on the only item of a batch. -/
theorem C9_sentinel_indistinguishable_witness :
    MetricFactory.knowsMetric "bias" = true ∧
    c9Calc 0 "bias" = Except.error "boom" ∧
    ((∃ r, (processBatchMetricsReal c9Calc c9Items ["bias"]).results[0]?
        = some r ∧ ("bias", (1/2 : ℚ)) ∈ r.metric_scores ∧
        r.success = true) ∧
    (processBatchMetricsReal c9Calc c9Items ["bias"]).failed_count = 0 ∧
    (processBatchMetricsReal c9Calc c9Items ["bias"]).successful_count
      = c9Items.length ∧
    processBatchMetricsReal
        (fun j m => if j = 0 ∧ m = "bias" then Except.ok c9Genuine
          else c9Calc j m) c9Items ["bias"]
      = processBatchMetricsReal c9Calc c9Items ["bias"]) :=
  ⟨by decide, rfl,
   C9_sentinel_indistinguishable c9Calc c9Items ["bias"] 0 "bias" "boom"
     c9Genuine (by decide) rfl rfl (by decide) (by decide)⟩

/-- Claim C7: if the requesting user already has a process whose stored
overall status is "In Progress", a second start request is rejected with
the 400 conflict error and the state is untouched: no second process id is
allocated, no handler is created, and no record is persisted. -/
theorem C7_conflict_rejects_second_start (st : OrchestratorState)
    (user_id newProcessId : String) (doc : StatusDoc)
    (hdoc : doc ∈ st.statusStore) (huser : doc.user_id = user_id)
    (hstat : doc.overall_status = "In Progress") :
    evaluateDataset st user_id newProcessId
      = (.conflict 400 "User already has an ongoing evaluation task.", st) := by
  have hcheck : checkOngoingTask st.statusStore user_id = true := by
    refine List.any_eq_true.mpr ⟨doc, hdoc, ?_⟩
    simp [huser, hstat]
  simp [evaluateDataset, hcheck]

/-- Concrete orchestrator state with one in-progress process, for the C7
witness. -/
def c7State : OrchestratorState :=
  { statusStore := [{ process_id := "p1"
                      user_id := "alice"
                      models := some []
                      overall_status := "In Progress" }]
    handlersCreated := 1
    allocatedProcessIds := ["p1"] }

/-- Witness for C7: a second start for the same user is rejected and the
state is returned unchanged. -/
theorem C7_conflict_rejects_second_start_witness :
    ({ process_id := "p1"
       user_id := "alice"
       models := some []
       overall_status := "In Progress" } : StatusDoc) ∈ c7State.statusStore ∧
    evaluateDataset c7State "alice" "p2"
      = (.conflict 400 "User already has an ongoing evaluation task.",
         c7State) :=
  ⟨by decide,
   C7_conflict_rejects_second_start c7State "alice" "p2"
     { process_id := "p1"
       user_id := "alice"
       models := some []
       overall_status := "In Progress" } (by decide) rfl rfl⟩

/-- Claim C8 (amended): no overall status is sticky.  Every status-writing
operation of the orchestrator writes unconditionally, so after any
operation sequence the overall status is determined by the last operation
alone (and, for finalization, by the model statuses, which these operations
never change) -- in particular a "Stopped" status is overwritten by a later
finalization or failure handler. -/
theorem C8_amended_last_write_wins (s : TaskStatusEntry) (ops : List OrchOp)
    (op : OrchOp) :
    (runOrchOps s (ops ++ [op])).overall_status
      = (match op with
         | .stopOp => "Stopped"
         | .finalizeOp =>
             if s.models.all (fun p => p.2 == "Completed") then "Completed"
             else "Failed"
         | .failOp => "Failed") := by
  have hmodels : ∀ (l : List OrchOp) (t : TaskStatusEntry),
      (runOrchOps t l).models = t.models := by
    intro l
    induction l with
    | nil => intro t; rfl
    | cons o rest ih =>
        intro t
        have h1 : runOrchOps t (o :: rest)
            = runOrchOps (applyOrchOp o t) rest := rfl
        rw [h1, ih]
        cases o <;> rfl
  have happ : runOrchOps s (ops ++ [op])
      = applyOrchOp op (runOrchOps s ops) := by
    simp [runOrchOps, List.foldl_append]
  rw [happ]
  cases op with
  | stopOp => rfl
  | finalizeOp =>
      show (finalizeEvaluationEntry (runOrchOps s ops)).overall_status = _
      simp only [finalizeEvaluationEntry]
      rw [hmodels ops s]
  | failOp => rfl

/-- The state `_update_model_status` can touch: the class-level
`task_statuses` cache (keyed by process id) and the status store. -/
structure HandlerState where
  cache : List (String × TaskStatusEntry)
  store : List StatusDoc
  deriving Repr, DecidableEq

/-- Dict lookup `task_statuses[process_id]` (as an `Option`; a missing key
raises `KeyError` at the caller). -/
def lookupEntry (cache : List (String × TaskStatusEntry)) (pid : String) :
    Option TaskStatusEntry :=
  (cache.find? (fun p => p.1 == pid)).map (fun p => p.2)

/-- Replace the cache entry of `pid`. -/
def setEntry (cache : List (String × TaskStatusEntry)) (pid : String)
    (entry : TaskStatusEntry) : List (String × TaskStatusEntry) :=
  cache.map (fun p => if p.1 == pid then (p.1, entry) else p)

/-- Python dict assignment `d[k] = v`: overwrite the existing key or
append a new binding. -/
def setAssoc (m : List (String × String)) (k v : String) :
    List (String × String) :=
  if m.any (fun p => p.1 == k) then
    m.map (fun p => if p.1 == k then (p.1, v) else p)
  else m ++ [(k, v)]

/-- Embeds `StatusRepository.get_status_document_by_process_id` against an
in-memory store (`find_one` by process id; `none` both when no document
exists and when the read fails, which the repository swallows). -/
def findDoc (store : List StatusDoc) (pid : String) : Option StatusDoc :=
  store.find? (fun d => d.process_id == pid)

/-- Embeds `StatusRepository.update_status_record`: upsert by process id (on this
path the document was just fetched, so it is an update). -/
def updateDoc (store : List StatusDoc) (pid : String) (doc : StatusDoc) :
    List StatusDoc :=
  store.map (fun d => if d.process_id == pid then doc else d)

/-- Embeds `EvaluationHandler._update_model_status`: the in-memory entry is
updated first (`KeyError` when the process has no cache entry); the store
write happens only when a status document exists for the process AND it has
a "models" key AND `index < len(models)`; otherwise the write is silently
skipped -- there is no else branch and no error. -/
def updateModelStatus (st : HandlerState) (process_id : String) (index : ℕ)
    (model_id status : String) : Except String HandlerState :=
  match lookupEntry st.cache process_id with
  | none => .error "KeyError"
  | some entry =>
      let cache1 := setEntry st.cache process_id
        { entry with models := setAssoc entry.models model_id status }
      let store1 :=
        match findDoc st.store process_id with
        | none => st.store
        | some doc =>
            match doc.models with
            | none => st.store
            | some ms =>
                if h : index < ms.length then
                  updateDoc st.store process_id
                    { doc with models := some (ms.set index
                        { ms.get ⟨index, h⟩ with status := status }) }
                else st.store
      .ok { cache := cache1, store := store1 }

/-- Claim C10: `_update_model_status` always updates the in-memory cache
entry of the process (given it exists), but writes the store only when a
status document exists for the process id and the model index lies inside
its models list; when either condition fails the store write is silently
skipped with no error raised, leaving the updated cache ahead of the
unchanged store. -/
theorem C10_update_model_status (st : HandlerState) (process_id : String)
    (index : ℕ) (model_id status : String) (entry : TaskStatusEntry)
    (hentry : lookupEntry st.cache process_id = some entry) :
    ∃ st', updateModelStatus st process_id index model_id status
        = Except.ok st' ∧
      st'.cache = setEntry st.cache process_id
        { entry with models := setAssoc entry.models model_id status } ∧
      (findDoc st.store process_id = none → st'.store = st.store) ∧
      (∀ doc, findDoc st.store process_id = some doc → doc.models = none →
        st'.store = st.store) ∧
      (∀ doc ms, findDoc st.store process_id = some doc →
        doc.models = some ms → ms.length ≤ index → st'.store = st.store) ∧
      (∀ doc ms, findDoc st.store process_id = some doc →
        doc.models = some ms → ∀ h : index < ms.length,
        st'.store = updateDoc st.store process_id
          { doc with models := some (ms.set index
              { ms.get ⟨index, h⟩ with status := status }) }) := by
  refine ⟨⟨setEntry st.cache process_id
      { entry with models := setAssoc entry.models model_id status },
      match findDoc st.store process_id with
      | none => st.store
      | some doc =>
          match doc.models with
          | none => st.store
          | some ms =>
              if h : index < ms.length then
                updateDoc st.store process_id
                  { doc with models := some (ms.set index
                      { ms.get ⟨index, h⟩ with status := status }) }
              else st.store⟩, ?_, rfl, ?_, ?_, ?_, ?_⟩
  · unfold updateModelStatus
    rw [hentry]
  · intro hd
    simp only [hd]
  · intro doc hd hm
    simp only [hd, hm]
  · intro doc ms hd hm hlen
    simp only [hd, hm]
    rw [dif_neg (Nat.not_lt.mpr hlen)]
  · intro doc ms hd hm h
    simp only [hd, hm]
    rw [dif_pos h]

/-- Handler state whose cache knows process "p1" while the status store
holds no document for it, for the C10 witness. -/
def c10State : HandlerState :=
  { cache := [("p1", { models := [("m1", "Not Started")]
                       overall_status := "In Progress" })]
    store := [] }

/-- Witness for C10: with no status document for the process, the cache is
updated and the store write is silently skipped. -/
theorem C10_update_model_status_witness :
    lookupEntry c10State.cache "p1"
      = some { models := [("m1", "Not Started")]
               overall_status := "In Progress" } ∧
    (∃ st', updateModelStatus c10State "p1" 0 "m1" "In Progress"
        = Except.ok st' ∧
      st'.cache = setEntry c10State.cache "p1"
        { models := setAssoc [("m1", "Not Started")] "m1" "In Progress"
          overall_status := "In Progress" } ∧
      (findDoc c10State.store "p1" = none → st'.store = c10State.store) ∧
      (∀ doc, findDoc c10State.store "p1" = some doc → doc.models = none →
        st'.store = c10State.store) ∧
      (∀ doc ms, findDoc c10State.store "p1" = some doc →
        doc.models = some ms → ms.length ≤ 0 →
        st'.store = c10State.store) ∧
      (∀ doc ms, findDoc c10State.store "p1" = some doc →
        doc.models = some ms → ∀ h : 0 < ms.length,
        st'.store = updateDoc c10State.store "p1"
          { doc with models := some (ms.set 0
              { ms.get ⟨0, h⟩ with status := "In Progress" }) })) :=
  ⟨rfl, C10_update_model_status c10State "p1" 0 "m1" "In Progress"
    { models := [("m1", "Not Started")]
      overall_status := "In Progress" } rfl⟩

/-- Embeds the `/stop` route body (`stop_evaluation_task`,
`api/routes/evaluation.py` lines 260-293): when a status document exists
its `overall_status` is set to "Stopped" and written back, and when the
process has an in-memory `task_statuses` entry that entry is set to
"Stopped" too -- both writes happen regardless of the previous status. -/
def stopEvaluationTask (st : HandlerState) (process_id : String) :
    HandlerState :=
  let store1 :=
    match findDoc st.store process_id with
    | none => st.store
    | some doc =>
        updateDoc st.store process_id { doc with overall_status := "Stopped" }
  let cache1 :=
    match lookupEntry st.cache process_id with
    | none => st.cache
    | some entry => setEntry st.cache process_id (stopEvaluationEntry entry)
  { cache := cache1, store := store1 }

/-- Embeds `EvaluationHandler._finalize_evaluation`
(`evaluation_handler.py` lines 327-353) on cache and store together: read
the in-memory model statuses (`KeyError` when the process has no cache
entry), recompute the overall status from them alone -- "Completed" iff
every model is "Completed", else "Failed" -- and write it unconditionally
to the cache entry and, when a status document exists, to the store,
without ever checking for a previously stored "Stopped". -/
def finalizeEvaluation (st : HandlerState) (process_id : String) :
    Except String HandlerState :=
  match lookupEntry st.cache process_id with
  | none => .error "KeyError"
  | some entry =>
      let cache1 :=
        setEntry st.cache process_id (finalizeEvaluationEntry entry)
      let store1 :=
        match findDoc st.store process_id with
        | none => st.store
        | some doc =>
            updateDoc st.store process_id
              { doc with overall_status :=
                  (finalizeEvaluationEntry entry).overall_status }
      .ok { cache := cache1, store := store1 }

/-- Overwriting the entry of a key present in the cache makes a later
lookup of that key return the new entry. -/
theorem lookupEntry_setEntry (cache : List (String × TaskStatusEntry))
    (pid : String) (e entry : TaskStatusEntry)
    (h : lookupEntry cache pid = some entry) :
    lookupEntry (setEntry cache pid e) pid = some e := by
  induction cache with
  | nil => simp [lookupEntry] at h
  | cons p rest ih =>
      by_cases hp : p.1 == pid
      · simp [lookupEntry, setEntry, List.find?, hp]
      · simp only [lookupEntry, setEntry, List.map_cons, if_neg hp] at h ⊢
        rw [List.find?_cons_of_neg _ (by simpa using hp)] at h ⊢
        exact ih h

/-- The full-state stop writes exactly the entry-level
`stopEvaluationEntry` result into the cache of a present process. -/
theorem stopEvaluationTask_cache_entry (st : HandlerState) (pid : String)
    (entry : TaskStatusEntry) (h : lookupEntry st.cache pid = some entry) :
    lookupEntry (stopEvaluationTask st pid).cache pid
      = some (stopEvaluationEntry entry) := by
  unfold stopEvaluationTask
  rw [h]
  exact lookupEntry_setEntry st.cache pid _ entry h

/-- The full-state finalization writes exactly the entry-level
`finalizeEvaluationEntry` result into the cache of a present process. -/
theorem finalizeEvaluation_cache_entry (st : HandlerState) (pid : String)
    (entry : TaskStatusEntry) (h : lookupEntry st.cache pid = some entry) :
    ∃ st', finalizeEvaluation st pid = Except.ok st' ∧
      lookupEntry st'.cache pid = some (finalizeEvaluationEntry entry) := by
  refine ⟨⟨setEntry st.cache pid (finalizeEvaluationEntry entry),
      match findDoc st.store pid with
      | none => st.store
      | some doc =>
          updateDoc st.store pid
            { doc with overall_status :=
                (finalizeEvaluationEntry entry).overall_status }⟩, ?_, ?_⟩
  · unfold finalizeEvaluation
    rw [h]
  · exact lookupEntry_setEntry st.cache pid _ entry h

/-- Concrete running process for the C8 counterexample: both the cache
entry and the status document of "p1" are "In Progress"; the only model has
already Completed. -/
def c8State : HandlerState :=
  { cache := [("p1", { models := [("m1", "Completed")]
                       overall_status := "In Progress" })]
    store := [{ process_id := "p1"
                user_id := "alice"
                models := some [{ config_id := "m1"
                                  model_name := "model-a"
                                  status := "Completed" }]
                overall_status := "In Progress" }] }

/-- Counterexample to claim C8: "Stopped" is not terminal.  An explicit
stop request sets the overall status of the process to "Stopped" in cache
and store; the still-running background task then calls
`_finalize_evaluation`, which overwrites both with "Completed": the
observable sequence of overall statuses contains "Stopped" followed by a
different value, in the durable store as well as in memory. -/
theorem C8_counterexample :
    (lookupEntry (stopEvaluationTask c8State "p1").cache "p1").map
        (fun e => e.overall_status) = some "Stopped" ∧
    (findDoc (stopEvaluationTask c8State "p1").store "p1").map
        (fun d => d.overall_status) = some "Stopped" ∧
    (∃ st', finalizeEvaluation (stopEvaluationTask c8State "p1") "p1"
        = Except.ok st' ∧
      (lookupEntry st'.cache "p1").map (fun e => e.overall_status)
        = some "Completed" ∧
      (findDoc st'.store "p1").map (fun d => d.overall_status)
        = some "Completed") ∧
    ("Stopped" : String) ≠ "Completed" := by
  refine ⟨rfl, rfl, ⟨_, rfl, rfl, rfl⟩, by decide⟩

end GenxEval
